import Mathlib

/-!
Shallow embedding of the goliasbot repository's dashboard client
(src/goliasbot/js/main.js and src/js/dashboard.js) and of the bot-side
components that the plan document (src/plano.md) describes.  Pure
JavaScript functions become Lean functions; DOM mutation is modelled as
explicit state passing over a map from element ids to abstract content;
a fetch call is recorded in a request list.
-/

namespace Goliasbot

/-- A Discord guild object as returned by the platform's
`users-at-me/guilds` endpoint: the dashboard reads `id`, `name`,
`permissions` and `icon`. -/
structure Guild where
  id : String
  name : String
  permissions : Nat
  icon : Option String
  deriving DecidableEq, Repr

/-- From src/goliasbot/js/main.js lines 104-107 (loadUserServers):
`serversData.filter(server => (server.permissions & 0x8) === 0x8)`. -/
def adminServersMain (serversData : List Guild) : List Guild :=
  serversData.filter (fun server => server.permissions &&& 8 == 8)

/-- From src/js/dashboard.js lines 137-140 (loadServerSwitcher):
`serversData.filter(server => (server.permissions & 0x8) === 0x8 && server.id !== currentServerId)`. -/
def adminServersSwitcher (serversData : List Guild) (currentServerId : String) : List Guild :=
  serversData.filter (fun server =>
    (server.permissions &&& 8 == 8) && (server.id != currentServerId))

/-- An item of the server-switcher dropdown built by loadServerSwitcher
(src/js/dashboard.js lines 142-166): the preserved first `li` (back to
selection), the disabled text-muted placeholder, the divider, or a link
to another server's dashboard. -/
inductive DropdownItem where
  | backToSelection
  | noServers
  | divider
  | serverLink (id : String) (name : String)
  deriving DecidableEq, Repr

/-- From src/js/dashboard.js lines 142-166: the dropdown is cleared down
to its first item, then either the placeholder (when no other admin
server exists) or a divider followed by one link per admin server. -/
def loadServerSwitcher (serversData : List Guild) (currentServerId : String) :
    List DropdownItem :=
  DropdownItem.backToSelection ::
    (if (adminServersSwitcher serversData currentServerId).length = 0 then
      [DropdownItem.noServers]
    else
      DropdownItem.divider ::
        (adminServersSwitcher serversData currentServerId).map
          (fun server => DropdownItem.serverLink server.id server.name))

/-- JavaScript truthiness of a nullable string (`null` and the empty
string are falsy), as used by `if (serverId)` and `if (!token)`. -/
def jsTruthy (s : Option String) : Bool :=
  match s with
  | none => false
  | some str => str != ""

/-- Which top-level view initDashboard leaves visible
(src/js/dashboard.js lines 26-37). -/
inductive DashView where
  | serverDashboard
  | serverSelection
  deriving DecidableEq, Repr

/-- Observable outcome of initDashboard: the visible view, the guild id
passed to loadServerDashboard/loadServerInfo (which fetches
`api/guilds/id`), and whether loadUserServers was invoked. -/
structure InitResult where
  view : DashView
  fetchesGuildInfoFor : Option String
  loadsUserServers : Bool
  deriving DecidableEq, Repr

/-- From src/js/dashboard.js lines 21-41 (initDashboard):
`const serverId = urlParams.get('server'); if (serverId) await loadServerDashboard(serverId); else ... await loadUserServers(...)`.
`urlParams.get` yields null (`none`) when the parameter is absent. -/
def initDashboard (serverParam : Option String) : InitResult :=
  if jsTruthy serverParam then
    { view := DashView.serverDashboard
      fetchesGuildInfoFor := serverParam
      loadsUserServers := false }
  else
    { view := DashView.serverSelection
      fetchesGuildInfoFor := none
      loadsUserServers := true }

/-- What the dashboard page's DOMContentLoaded handler does. -/
inductive PageAction where
  | redirect (target : String)
  | runInit (r : InitResult)
  deriving DecidableEq, Repr

/-- From src/js/dashboard.js lines 6-16: read `discord_token` from local
storage; if falsy, set `window.location.href = 'index.html'` and return;
otherwise run initDashboard. -/
def dashboardOnLoad (storedToken : Option String) (serverParam : Option String) :
    PageAction :=
  if jsTruthy storedToken then
    PageAction.runInit (initDashboard serverParam)
  else
    PageAction.redirect "index.html"

/-- The mock statistics literal of loadStatistics
(src/js/dashboard.js lines 180-185). -/
structure MockStats where
  active_modules : Nat
  days_remaining : Nat
  expiring_licenses : Nat
  expired_licenses : Nat
  deriving DecidableEq, Repr

/-- `mockStats` from src/js/dashboard.js lines 180-185. -/
def mockStats : MockStats :=
  { active_modules := 2
    days_remaining := 15
    expiring_licenses := 1
    expired_licenses := 0 }

/-- A license object of the mock data in loadActiveLicenses
(src/js/dashboard.js lines 204-219). -/
structure License where
  module_id : String
  module_name : String
  expiration_date : String
  days_remaining : Nat
  status : String
  deriving DecidableEq, Repr

/-- `mockLicenses` from src/js/dashboard.js lines 204-219. -/
def mockLicenses : List License :=
  [{ module_id := "advertencias"
     module_name := "Sistema de Advertências"
     expiration_date := "2023-12-31T23:59:59"
     days_remaining := 25
     status := "active" },
   { module_id := "ponto"
     module_name := "Controle de Ponto"
     expiration_date := "2023-12-10T23:59:59"
     days_remaining := 5
     status := "expiring" }]

/-- A license row of loadLicenses, which additionally carries an id
(src/js/dashboard.js lines 441-458). -/
structure LicenseRecord where
  id : String
  module_id : String
  module_name : String
  expiration_date : String
  days_remaining : Nat
  status : String
  deriving DecidableEq, Repr

/-- `licenses` from src/js/dashboard.js lines 441-458. -/
def licensesData : List LicenseRecord :=
  [{ id := "123456"
     module_id := "advertencias"
     module_name := "Sistema de Advertências"
     expiration_date := "2023-12-31T23:59:59"
     days_remaining := 25
     status := "active" },
   { id := "789012"
     module_id := "ponto"
     module_name := "Controle de Ponto"
     expiration_date := "2023-12-10T23:59:59"
     days_remaining := 5
     status := "expiring" }]

/-- An activity object of loadRecentActivity
(src/js/dashboard.js lines 272-285). -/
structure Activity where
  type : String
  moduleName : String
  timestamp : String
  message : String
  deriving DecidableEq, Repr

/-- `mockActivities` from src/js/dashboard.js lines 272-285. -/
def mockActivities : List Activity :=
  [{ type := "payment"
     moduleName := "Sistema de Advertências"
     timestamp := "2023-11-05T14:32:00"
     message := "Licença renovada por 30 dias" },
   { type := "warning"
     moduleName := "Controle de Ponto"
     timestamp := "2023-11-01T09:15:00"
     message := "Licença expirando em 10 dias" }]

/-- A transaction object of loadTransactions
(src/js/dashboard.js lines 510-529); the JS amounts 10.00 and 15.00 BRL
are held in cents. -/
structure Transaction where
  id : String
  module_id : String
  module_name : String
  amountCents : Nat
  currency : String
  date : String
  status : String
  deriving DecidableEq, Repr

/-- `transactions` from src/js/dashboard.js lines 510-529. -/
def transactionsData : List Transaction :=
  [{ id := "TX123456"
     module_id := "advertencias"
     module_name := "Sistema de Advertências"
     amountCents := 1000
     currency := "BRL"
     date := "2023-11-05T14:32:00"
     status := "approved" },
   { id := "TX789012"
     module_id := "ponto"
     module_name := "Controle de Ponto"
     amountCents := 1500
     currency := "BRL"
     date := "2023-10-12T10:45:00"
     status := "approved" }]

/-- A module object of loadModules (src/js/dashboard.js lines 371-399);
the JS prices 10.00, 15.00 and 20.00 BRL are held in cents. -/
structure ModuleInfo where
  id : String
  name : String
  description : String
  priceCents : Nat
  currency : String
  status : String
  features : List String
  deriving DecidableEq, Repr

/-- `modules` from src/js/dashboard.js lines 371-399. -/
def modulesData : List ModuleInfo :=
  [{ id := "advertencias"
     name := "Sistema de Advertências"
     description := "Gerencia advertências de usuários com limite configurável e ações automáticas."
     priceCents := 1000
     currency := "BRL"
     status := "active"
     features := ["Advertências configuráveis", "Ações automáticas", "Registro de logs"] },
   { id := "ponto"
     name := "Controle de Ponto"
     description := "Gerencie a presença de membros com sistema de entrada e saída."
     priceCents := 1500
     currency := "BRL"
     status := "active"
     features := ["Registro de horas", "Relatórios semanais", "Lembretes automáticos"] },
   { id := "economia"
     name := "Sistema de Economia"
     description := "Sistema completo de economia virtual para seu servidor."
     priceCents := 2000
     currency := "BRL"
     status := "available"
     features := ["Moeda virtual", "Loja personalizada", "Sistema de trabalhos", "Jogos e apostas"] }]

/-- Abstract content a dashboard container can hold after a panel load. -/
inductive Content where
  | empty
  | natText (n : Nat)
  | message (s : String)
  | licenseGroup (ls : List License)
  | activityItems (acts : List Activity)
  | licenseRows (ls : List LicenseRecord)
  | transactionRows (ts : List Transaction)
  | moduleCards (ms : List ModuleInfo)
  deriving DecidableEq, Repr

/-- The page DOM, as a map from element id to its rendered content. -/
def Dom : Type := String → Content

/-- Overwriting an element's content (the `innerHTML = ...; append`
pattern: each loader clears its container before appending). -/
def setContainer (dom : Dom) (cid : String) (c : Content) : Dom :=
  fun x => if x = cid then c else dom x

/-- From src/js/dashboard.js lines 176-195 (loadStatistics): writes the
four counters of `mockStats`; performs no fetch (the first component is
the list of HTTP requests issued, empty here). -/
def loadStatistics (serverId : String) (dom : Dom) : List String × Dom :=
  ([], setContainer (setContainer (setContainer (setContainer dom
    "active-modules-count" (Content.natText mockStats.active_modules))
    "days-remaining" (Content.natText mockStats.days_remaining))
    "expiring-licenses" (Content.natText mockStats.expiring_licenses))
    "expired-licenses" (Content.natText mockStats.expired_licenses))

/-- From src/js/dashboard.js lines 201-263 (loadActiveLicenses): clears
`active-licenses-list` then renders `mockLicenses` (or a placeholder
message when the list is empty); no fetch. -/
def loadActiveLicenses (serverId : String) (dom : Dom) : List String × Dom :=
  ([], setContainer dom "active-licenses-list"
    (if mockLicenses.length = 0 then
      Content.message "Nenhuma licença ativa encontrada."
    else
      Content.licenseGroup mockLicenses))

/-- From src/js/dashboard.js lines 269-333 (loadRecentActivity): clears
`recent-activity` then renders `mockActivities`; no fetch. -/
def loadRecentActivity (serverId : String) (dom : Dom) : List String × Dom :=
  ([], setContainer dom "recent-activity"
    (if mockActivities.length = 0 then
      Content.message "Nenhuma atividade recente encontrada."
    else
      Content.activityItems mockActivities))

/-- From src/js/dashboard.js lines 366-431 (loadModules): clears
`modules-list` then renders one card per element of `modulesData`;
no fetch. -/
def loadModules (dom : Dom) : List String × Dom :=
  ([], setContainer dom "modules-list" (Content.moduleCards modulesData))

/-- From src/js/dashboard.js lines 436-500 (loadLicenses): clears
`licenses-table-body` then renders `licensesData`; no fetch. -/
def loadLicenses (dom : Dom) : List String × Dom :=
  ([], setContainer dom "licenses-table-body"
    (if licensesData.length = 0 then
      Content.message "Nenhuma licença encontrada."
    else
      Content.licenseRows licensesData))

/-- From src/js/dashboard.js lines 505-568 (loadTransactions): clears
`transactions-table-body` then renders `transactionsData`; no fetch. -/
def loadTransactions (dom : Dom) : List String × Dom :=
  ([], setContainer dom "transactions-table-body"
    (if transactionsData.length = 0 then
      Content.message "Nenhuma transação encontrada."
    else
      Content.transactionRows transactionsData))

/-- The user object returned by the platform's identity endpoint, as
read by updateUIForLoggedUser. -/
structure UserData where
  id : String
  avatar : String
  username : String
  deriving DecidableEq, Repr

/-- The identity response: its `ok` flag and (when ok) the decoded user. -/
structure IdentityResponse where
  ok : Bool
  user : UserData
  deriving DecidableEq, Repr

/-- Content of the login button. -/
inductive BtnContent where
  | text (s : String)
  | userInfo (id : String) (avatar : String) (username : String)
  deriving DecidableEq, Repr

/-- The observable state touched by src/goliasbot/js/main.js: the stored
token, the login button (none when the element is absent from the page),
its href, and whether loadUserServers has been invoked. -/
structure MainPageState where
  storedToken : Option String
  loginBtn : Option BtnContent
  loginBtnHref : String
  serversLoaded : Bool
  deriving DecidableEq, Repr

/-- From src/goliasbot/js/main.js lines 53-84 (updateUIForLoggedUser):
on a non-ok identity response, remove `discord_token` and return;
otherwise rewrite the login button (when present) with the user's avatar
and name, point it at dashboard.html, and on the dashboard page invoke
loadUserServers. -/
def updateUIForLoggedUser (resp : IdentityResponse) (onDashboardPage : Bool)
    (st : MainPageState) : MainPageState :=
  if resp.ok = false then
    { st with storedToken := none }
  else
    let st1 :=
      match st.loginBtn with
      | some _ =>
        { st with
            loginBtn := some (BtnContent.userInfo resp.user.id resp.user.avatar
              resp.user.username)
            loginBtnHref := "dashboard.html" }
      | none => st
    if onDashboardPage then { st1 with serversLoaded := true } else st1

/-- Modelled from the spec: the Python registration workflow (the
approval buttons over the `registrations` table) is not in the source
tree; plano.md section `Sistema de Cadastro` and the spec describe a
record whose status is one of pending, approved, rejected. -/
inductive RegStatus where
  | pending
  | approved
  | rejected
  deriving DecidableEq, Repr

/-- A moderator decision on a pending registration. -/
inductive Decision where
  | approve
  | reject
  deriving DecidableEq, Repr

/-- Modelled from the spec: applying a moderator decision to a record's
status; a pending record moves to approved or rejected, and a terminal
record is not mutated (re-approval or re-rejection is a no-op). -/
def applyDecision (d : Decision) (st : RegStatus) : RegStatus :=
  match st, d with
  | RegStatus.pending, Decision.approve => RegStatus.approved
  | RegStatus.pending, Decision.reject => RegStatus.rejected
  | other, _ => other

/-- Modelled from the spec: a registration record as plano.md describes
it (guild, submitter, name, assigned in-server id, recruiter, status). -/
structure Registration where
  guildId : String
  userId : String
  name : String
  serverId : String
  recruiterId : String
  status : RegStatus
  deriving DecidableEq, Repr

/-- Modelled from the spec: re-submission appends a fresh pending record
to the registration history instead of mutating a terminal one. -/
def submitRegistration (regs : List Registration) (r : Registration) :
    List Registration :=
  regs ++ [{ r with status := RegStatus.pending }]

/-- Modelled from the spec: the Permission Gate of plano.md section
`Sistema de Permissões` (the `command_permissions` table and
`command_guard()` are not in the source tree).  `configuredRoles` maps a
command name to the configured role set for this community, `none` when
the command is unconfigured.  Administrators always pass; an
unconfigured command is allowed for everyone; otherwise the configured
set must intersect the actor's roles. -/
def allowed (configuredRoles : String → Option (List String)) (cmd : String)
    (actorRoles : List String) (isAdmin : Bool) : Bool :=
  if isAdmin then
    true
  else
    match configuredRoles cmd with
    | none => true
    | some rs => rs.any (fun r => actorRoles.contains r)

/-- Escalation action taken by a warning. -/
inductive WarnAction where
  | assignRole (roleName : String)
  | ban
  deriving DecidableEq, Repr

/-- Result of one warn invocation: the member's new stored count, the
escalation action, and the reason as recorded in the warning log. -/
structure WarnResult where
  newCount : Nat
  action : WarnAction
  loggedReason : String
  deriving DecidableEq, Repr

/-- Modelled from the spec: the `adv` command of plano.md section
`Sistema de Advertências` (the Python cog is not in the source tree).
The stored count is incremented; the first warning assigns role ADV 1,
the second ADV 2, the third and later ban; the reason is only logged. -/
def warn (count : Nat) (reason : String) : WarnResult :=
  { newCount := count + 1
    action :=
      if count + 1 = 1 then WarnAction.assignRole "ADV 1"
      else if count + 1 = 2 then WarnAction.assignRole "ADV 2"
      else WarnAction.ban
    loggedReason := reason }

/-- A guild whose permissions field has the administrator bit set, used
as concrete input in witnesses and counterexamples. -/
def cexGuild : Guild :=
  { id := "g1", name := "Guilda", permissions := 8, icon := none }

/-- A concrete registration record for witnesses. -/
def reg0 : Registration :=
  { guildId := "g1"
    userId := "u1"
    name := "Nome"
    serverId := "42"
    recruiterId := "7"
    status := RegStatus.approved }

/-- A concrete user for witnesses. -/
def user0 : UserData := { id := "u1", avatar := "a1", username := "nick" }

/-- A concrete main-page state for witnesses. -/
def st0 : MainPageState :=
  { storedToken := some "tok"
    loginBtn := some (BtnContent.text "Login")
    loginBtnHref := "index.html"
    serversLoaded := false }

/- ========================= Theorems ========================= -/

/-- Overwriting the same container twice with the same content equals
overwriting it once. -/
theorem setContainer_idem (dom : Dom) (cid : String) (c : Content) :
    setContainer (setContainer dom cid c) cid c = setContainer dom cid c := by
  funext x
  by_cases h : x = cid <;> simp [setContainer, h]

/-- A terminal (non-pending) registration status is not changed by any
further moderator decision. -/
theorem applyDecision_terminal (d : Decision) (st : RegStatus)
    (h : st ≠ RegStatus.pending) : applyDecision d st = st := by
  cases st with
  | pending => exact absurd rfl h
  | approved => cases d <;> rfl
  | rejected => cases d <;> rfl

/-- Claim C1, as stated, is false: loadServerSwitcher does not include
every community with the administrator permission bit; the community
whose id equals the currently-viewed one is filtered out even though its
bit is set. -/
theorem C1_counterexample :
    ¬ (∀ (serversData : List Guild) (currentServerId : String) (s : Guild),
        s ∈ serversData →
        ((s ∈ adminServersMain serversData ↔ s.permissions &&& 8 = 8) ∧
         (s ∈ adminServersSwitcher serversData currentServerId ↔
           s.permissions &&& 8 = 8))) :=
  fun h =>
    absurd ((h [cexGuild] "g1" cexGuild (by decide)).2.mpr (by decide)) (by decide)

/-- Claim C1 (amended): loadUserServers includes a community iff its
permissions satisfy the administrator bit check, and loadServerSwitcher
includes it iff the bit check holds and its id differs from the
currently-viewed community. -/
theorem C1_admin_filters (serversData : List Guild) (currentServerId : String)
    (s : Guild) (hmem : s ∈ serversData) :
    (s ∈ adminServersMain serversData ↔ s.permissions &&& 8 = 8) ∧
    (s ∈ adminServersSwitcher serversData currentServerId ↔
      (s.permissions &&& 8 = 8 ∧ s.id ≠ currentServerId)) := by
  constructor
  · simp [adminServersMain, List.mem_filter, hmem]
  · simp [adminServersSwitcher, List.mem_filter, hmem, and_assoc]

/-- Witness for C1_admin_filters at a concrete guild list. -/
theorem C1_witness :
    (cexGuild ∈ adminServersMain [cexGuild] ↔ cexGuild.permissions &&& 8 = 8) ∧
    (cexGuild ∈ adminServersSwitcher [cexGuild] "g1" ↔
      (cexGuild.permissions &&& 8 = 8 ∧ cexGuild.id ≠ "g1")) :=
  C1_admin_filters [cexGuild] "g1" cexGuild (by decide)

/-- Claim C2, as stated, is false: initDashboard does not branch on mere
presence of the `server` parameter; a present but empty value (as in
`dashboard.html?server=`) is falsy in JavaScript and yields the
selection view. -/
theorem C2_counterexample :
    ¬ (∀ (p : Option String), p.isSome = true →
        (initDashboard p).view = DashView.serverDashboard) :=
  fun h => absurd (h (some "") rfl) (by decide)

/-- Claim C2 (amended): initDashboard branches on the presence of a
non-empty `server` parameter: present and non-empty shows the server
dashboard and fetches that community's info; absent or empty shows the
selection view and loads the user's community list instead. -/
theorem C2_init_branch (p : Option String) :
    (∀ s, p = some s → s ≠ "" →
      initDashboard p =
        { view := DashView.serverDashboard
          fetchesGuildInfoFor := some s
          loadsUserServers := false }) ∧
    ((p = none ∨ p = some "") →
      initDashboard p =
        { view := DashView.serverSelection
          fetchesGuildInfoFor := none
          loadsUserServers := true }) := by
  constructor
  · rintro s rfl hs
    simp [initDashboard, jsTruthy, hs]
  · rintro (rfl | rfl) <;> simp [initDashboard, jsTruthy]

/-- Witness for C2_init_branch at a concrete non-empty id and at an
absent parameter. -/
theorem C2_witness :
    initDashboard (some "123") =
      { view := DashView.serverDashboard
        fetchesGuildInfoFor := some "123"
        loadsUserServers := false } ∧
    initDashboard none =
      { view := DashView.serverSelection
        fetchesGuildInfoFor := none
        loadsUserServers := true } :=
  ⟨(C2_init_branch (some "123")).1 "123" rfl (by decide),
   (C2_init_branch none).2 (Or.inl rfl)⟩

/-- Claim C3: with no stored `discord_token`, the dashboard page
redirects to index.html and performs no dashboard initialization,
whatever the navigation query holds. -/
theorem C3_no_token_redirects (serverParam : Option String) :
    dashboardOnLoad none serverParam = PageAction.redirect "index.html" := rfl

/-- Claim C4: the statistics, license and transaction panels render
fixed mock data: their DOM writes are independent of the serverId
argument, equal to the hard-coded literals, and they issue no HTTP
request. -/
theorem C4_mock_panels (s1 s2 : String) (dom : Dom) :
    loadStatistics s1 dom = loadStatistics s2 dom ∧
    (loadStatistics s1 dom).1 = [] ∧
    (loadStatistics s1 dom).2 "active-modules-count" = Content.natText 2 ∧
    (loadStatistics s1 dom).2 "days-remaining" = Content.natText 15 ∧
    (loadStatistics s1 dom).2 "expiring-licenses" = Content.natText 1 ∧
    (loadStatistics s1 dom).2 "expired-licenses" = Content.natText 0 ∧
    loadActiveLicenses s1 dom = loadActiveLicenses s2 dom ∧
    (loadActiveLicenses s1 dom).1 = [] ∧
    (loadActiveLicenses s1 dom).2 "active-licenses-list" =
      Content.licenseGroup mockLicenses ∧
    (loadLicenses dom).1 = [] ∧
    (loadLicenses dom).2 "licenses-table-body" = Content.licenseRows licensesData ∧
    (loadTransactions dom).1 = [] ∧
    (loadTransactions dom).2 "transactions-table-body" =
      Content.transactionRows transactionsData :=
  ⟨rfl, rfl, rfl, rfl, rfl, rfl, rfl, rfl, rfl, rfl, rfl, rfl, rfl⟩

/-- Claim C5: every panel load clears its container before appending, so
running any of the five panel loaders twice leaves the DOM identical to
running it once, from every starting DOM state. -/
theorem C5_panel_loads_idempotent (serverId : String) (dom : Dom) :
    (loadActiveLicenses serverId (loadActiveLicenses serverId dom).2).2 =
      (loadActiveLicenses serverId dom).2 ∧
    (loadRecentActivity serverId (loadRecentActivity serverId dom).2).2 =
      (loadRecentActivity serverId dom).2 ∧
    (loadLicenses (loadLicenses dom).2).2 = (loadLicenses dom).2 ∧
    (loadTransactions (loadTransactions dom).2).2 = (loadTransactions dom).2 ∧
    (loadModules (loadModules dom).2).2 = (loadModules dom).2 := by
  refine ⟨?_, ?_, ?_, ?_, ?_⟩ <;>
    simp [loadActiveLicenses, loadRecentActivity, loadLicenses, loadTransactions,
      loadModules, setContainer_idem]

/-- Claim C6: a registration transitions at most once out of pending:
terminal statuses absorb any single decision and any sequence of further
decisions, a decision moves pending to the corresponding terminal
status, and re-submission appends a fresh pending record, leaving
existing records untouched. -/
theorem C6_registration_transitions :
    (∀ (d : Decision) (st : RegStatus), st ≠ RegStatus.pending →
      applyDecision d st = st) ∧
    (∀ (ds : List Decision) (st : RegStatus), st ≠ RegStatus.pending →
      ds.foldl (fun s d => applyDecision d s) st = st) ∧
    applyDecision Decision.approve RegStatus.pending = RegStatus.approved ∧
    applyDecision Decision.reject RegStatus.pending = RegStatus.rejected ∧
    (∀ (regs : List Registration) (r : Registration),
      (submitRegistration regs r).take regs.length = regs ∧
      (submitRegistration regs r).drop regs.length =
        [{ r with status := RegStatus.pending }]) := by
  refine ⟨applyDecision_terminal, ?_, rfl, rfl, ?_⟩
  · intro ds
    induction ds with
    | nil => intro st h; rfl
    | cons d ds ih =>
      intro st h
      have hd := applyDecision_terminal d st h
      simp only [List.foldl_cons, hd]
      exact ih st h
  · intro regs r
    exact ⟨List.take_left regs _, List.drop_left regs _⟩

/-- Witness for C6_registration_transitions on a terminal record, a
decision sequence over a terminal record, and a concrete submission. -/
theorem C6_witness :
    applyDecision Decision.reject RegStatus.approved = RegStatus.approved ∧
    [Decision.approve, Decision.reject].foldl (fun s d => applyDecision d s)
      RegStatus.rejected = RegStatus.rejected ∧
    (submitRegistration [reg0] reg0).take 1 = [reg0] ∧
    (submitRegistration [reg0] reg0).drop 1 =
      [{ reg0 with status := RegStatus.pending }] :=
  ⟨C6_registration_transitions.1 Decision.reject RegStatus.approved (by decide),
   C6_registration_transitions.2.1 [Decision.approve, Decision.reject]
     RegStatus.rejected (by decide),
   (C6_registration_transitions.2.2.2.2 [reg0] reg0).1,
   (C6_registration_transitions.2.2.2.2 [reg0] reg0).2⟩

/-- Claim C7: the Permission Gate always passes administrators, whatever
the configured role sets, and a command with no configured role set is
allowed for every actor. -/
theorem C7_permission_gate (configuredRoles : String → Option (List String))
    (cmd : String) (actorRoles : List String) (isAdmin : Bool) :
    allowed configuredRoles cmd actorRoles true = true ∧
    (configuredRoles cmd = none →
      allowed configuredRoles cmd actorRoles isAdmin = true) := by
  constructor
  · rfl
  · intro h
    cases isAdmin <;> simp [allowed, h]

/-- Witness for C7_permission_gate on an unconfigured command. -/
theorem C7_witness :
    allowed (fun _ => none) "adv" ["staff"] true = true ∧
    allowed (fun _ => none) "adv" ["staff"] false = true :=
  ⟨(C7_permission_gate (fun _ => none) "adv" ["staff"] false).1,
   (C7_permission_gate (fun _ => none) "adv" ["staff"] false).2 rfl⟩

/-- Claim C8: starting from a zero count, the first warning assigns role
ADV 1, the second ADV 2, and the third triggers a ban, whatever the
three reason texts; the count and action of a warning never depend on
the reason. -/
theorem C8_progressive_discipline (r1 r2 r3 : String) :
    (warn 0 r1).action = WarnAction.assignRole "ADV 1" ∧
    (warn (warn 0 r1).newCount r2).action = WarnAction.assignRole "ADV 2" ∧
    (warn (warn (warn 0 r1).newCount r2).newCount r3).action = WarnAction.ban ∧
    (∀ (c : Nat) (rA rB : String),
      (warn c rA).action = (warn c rB).action ∧
      (warn c rA).newCount = (warn c rB).newCount) :=
  ⟨rfl, rfl, rfl, fun _ _ _ => ⟨rfl, rfl⟩⟩

/-- Claim C9: on a non-ok identity response, updateUIForLoggedUser only
removes the stored token: the login button, its href and the
community-list loading flag are left exactly as they were. -/
theorem C9_non_ok_removes_token (resp : IdentityResponse) (onDash : Bool)
    (st : MainPageState) (h : resp.ok = false) :
    updateUIForLoggedUser resp onDash st = { st with storedToken := none } := by
  simp [updateUIForLoggedUser, h]

/-- Witness for C9_non_ok_removes_token at a concrete failed response. -/
theorem C9_witness :
    updateUIForLoggedUser { ok := false, user := user0 } true st0 =
      { st0 with storedToken := none } :=
  C9_non_ok_removes_token { ok := false, user := user0 } true st0 rfl

/-- Claim C10: the server-switcher dropdown never contains a link for
the currently-viewed community, and when no other administered community
exists it consists of the preserved back item and exactly the one
disabled placeholder. -/
theorem C10_switcher_excludes_current (serversData : List Guild)
    (currentServerId : String) :
    (∀ name, DropdownItem.serverLink currentServerId name ∉
      loadServerSwitcher serversData currentServerId) ∧
    (adminServersSwitcher serversData currentServerId = [] →
      loadServerSwitcher serversData currentServerId =
        [DropdownItem.backToSelection, DropdownItem.noServers]) := by
  constructor
  · intro name hmem
    unfold loadServerSwitcher at hmem
    rcases List.mem_cons.mp hmem with h | h
    · exact DropdownItem.noConfusion h
    · by_cases hlen : (adminServersSwitcher serversData currentServerId).length = 0
      · rw [if_pos hlen] at h
        simp at h
      · rw [if_neg hlen] at h
        rcases List.mem_cons.mp h with h2 | h2
        · exact DropdownItem.noConfusion h2
        · rcases List.mem_map.mp h2 with ⟨g, hg, heq⟩
          have hid : g.id = currentServerId := by
            injection heq
          have hfil := (List.mem_filter.mp hg).2
          rw [Bool.and_eq_true, bne_iff_ne] at hfil
          exact hfil.2 hid
  · intro h
    simp [loadServerSwitcher, h]

/-- Witness for C10_switcher_excludes_current when the only administered
community is the one currently viewed. -/
theorem C10_witness :
    DropdownItem.serverLink "g1" "Guilda" ∉ loadServerSwitcher [cexGuild] "g1" ∧
    loadServerSwitcher [cexGuild] "g1" =
      [DropdownItem.backToSelection, DropdownItem.noServers] :=
  ⟨(C10_switcher_excludes_current [cexGuild] "g1").1 "Guilda",
   (C10_switcher_excludes_current [cexGuild] "g1").2 (by decide)⟩

end Goliasbot
